import Mathlib

/-!
Shallow embedding of the Tea Shop API (src/afastapi.py): the token service
(JWT issue/verify as implemented by PyJWT with HS256), the authentication
gate `get_current_user`, the login endpoint `login_for_access_token`, and
the CRUD endpoints `get_teas`, `create_tea`, `update_tea`, `delete_tea`.

The SQLite store is an external collaborator; it is embedded as an in-memory
list of records inside a `DB` state, threaded explicitly through each
endpoint.  Times are natural numbers (seconds since the epoch), matching the
integer `exp` claim PyJWT embeds and checks.
-/

namespace TeaShop

/-- `JWT_SECRET_KEY = "your-secret-key"` (afastapi.py line 22). -/
def JWT_SECRET_KEY : String := "your-secret-key"

/-- `JWT_EXPIRATION_MINUTES = 30` (afastapi.py line 24). -/
def JWT_EXPIRATION_MINUTES : Nat := 30

/-- The claim set of a JWT payload as this program uses it: an optional
`sub` claim and an integer `exp` claim (seconds).  `generate_jwt_token`
always writes `exp`; `sub` is whatever the caller's payload dict held. -/
structure Claims where
  sub : Option String
  exp : Nat
deriving Repr, DecidableEq

/-- A signed JWT, embedded abstractly: the claims plus the secret the token
was signed with.  `jwt.encode(payload, key, HS256)` is modelled as pairing
the payload with `key`; `jwt.decode(token, key, [HS256])` checks that the
recorded signing key equals `key` (signature verification) before
validating the `exp` claim, exactly as PyJWT does. -/
structure Token where
  claims : Claims
  signedWith : String
deriving Repr, DecidableEq

/-- The two PyJWT failures the code distinguishes (afastapi.py lines
115, 121): `jwt.ExpiredSignatureError` and every other
`jwt.InvalidTokenError` (bad signature, garbage token, ...). -/
inductive JwtError where
  | expiredSignature
  | invalidToken
deriving Repr, DecidableEq

/-- `jwt.decode(token, key, algorithms=[HS256])`.  PyJWT first verifies the
signature (raising `InvalidTokenError` on mismatch) and only then validates
claims, raising `ExpiredSignatureError` when `exp <= now` (leeway 0). -/
def jwtDecode (t : Token) (key : String) (now : Nat) : Except JwtError Claims :=
  if t.signedWith = key then
    if t.claims.exp ≤ now then .error .expiredSignature
    else .ok t.claims
  else .error .invalidToken

/-- `generate_jwt_token(data)` (afastapi.py lines 27-40): copies the payload
dict, sets `exp` to now + `JWT_EXPIRATION_MINUTES`, and signs with
`JWT_SECRET_KEY`.  The only payload the program ever passes is
`{"sub": username}`, so the payload is embedded as its optional `sub`. -/
def generate_jwt_token (sub : Option String) (now : Nat) : Token :=
  { claims := { sub := sub, exp := now + JWT_EXPIRATION_MINUTES * 60 }
    signedWith := JWT_SECRET_KEY }

/-- `class User` (afastapi.py lines 48-52): id, unique username, password. -/
structure User where
  id : Nat
  username : String
  password : String
deriving Repr, DecidableEq

/-- `class Tea` (afastapi.py lines 54-58): id, name, origin. -/
structure Tea where
  id : Nat
  name : String
  origin : String
deriving Repr, DecidableEq

/-- `class TeaCreate` (afastapi.py lines 61-64): the request body of
create/update. -/
structure TeaCreate where
  name : String
  origin : String
deriving Repr, DecidableEq

/-- `class TokenResponse` (afastapi.py lines 66-69). -/
structure TokenResponse where
  access_token : Token
  token_type : String
deriving Repr, DecidableEq

/-- An `HTTPException(status_code, detail)` as raised by the endpoints.
The `WWW-Authenticate: Bearer` header accompanying every 401 carries no
information beyond the status and is not recorded. -/
structure HTTPError where
  status_code : Nat
  detail : String
deriving Repr, DecidableEq

/-- 401 "Token has expired" (afastapi.py lines 116-120). -/
def expiredError : HTTPError :=
  { status_code := 401, detail := "Token has expired" }

/-- 401 raised for any other `jwt.InvalidTokenError` (afastapi.py lines
122-126); the detail interpolates PyJWT's message, which for a signature
mismatch is "Signature verification failed". -/
def malformedError : HTTPError :=
  { status_code := 401, detail := "Invalid token: Signature verification failed" }

/-- 401 raised when the decoded payload has no `sub` (afastapi.py lines
98-102); the `HTTPException` is re-caught by the generic `except Exception`
clause at line 127 and re-raised with its text wrapped in
"Authentication error: ...". -/
def noUsernameError : HTTPError :=
  { status_code := 401
    detail := "Authentication error: 401: Invalid token: no username found" }

/-- 401 raised when the subject resolves to no stored user (afastapi.py
lines 108-112), re-wrapped by the same generic clause as `noUsernameError`. -/
def userNotFoundError : HTTPError :=
  { status_code := 401, detail := "Authentication error: 401: User not found" }

/-- 401 "Incorrect username or password" (afastapi.py lines 148-152). -/
def badCredentialsError : HTTPError :=
  { status_code := 401, detail := "Incorrect username or password" }

/-- 404 "Tea not found" (afastapi.py lines 211, 229). -/
def notFoundError : HTTPError :=
  { status_code := 404, detail := "Tea not found" }

/-- The durable store, embedded in memory: the user table, the tea table,
and the id the store will assign to the next inserted tea.

Modelled from the spec: id assignment is performed by the external SQLite
store (an excluded collaborator, "treated as an opaque durable
key-value-by-id store"); the spec fixes its contract to "monotonic counter
or store-assigned key" that never reuses an id, so insertion assigns
`nextTeaId` and increments it, and deletion leaves the counter alone. -/
structure DB where
  users : List User
  teas : List Tea
  nextTeaId : Nat
deriving Repr, DecidableEq

/-- `session.exec(select(User).where(User.username == username)).first()`. -/
def findUser (db : DB) (username : String) : Option User :=
  db.users.find? (fun u => u.username == username)

/-- `session.get(Tea, tea_id)`: primary-key lookup. -/
def findTea (db : DB) (teaId : Nat) : Option Tea :=
  db.teas.find? (fun t => t.id == teaId)

/-- `get_current_user` (afastapi.py lines 87-134) with the store available:
decode the bearer token, extract `sub`, look the username up, return the
user.  Failures, in the code's order:
* `jwt.ExpiredSignatureError` → 401 "Token has expired";
* any other `jwt.InvalidTokenError` → 401 "Invalid token: ...";
* `sub` missing → 401 whose detail mentions "no username found";
* user not found → 401 whose detail mentions "User not found".
(The last two are raised as `HTTPException`s inside the `try` block and so
are re-caught by the generic `except Exception` clause at line 127, which
re-raises them as a 401 with the original text wrapped in
"Authentication error: ..."; either way the status is 401 and the detail
contains the original message.) -/
def get_current_user (db : DB) (credentials : Token) (now : Nat) :
    Except HTTPError User :=
  match jwtDecode credentials JWT_SECRET_KEY now with
  | .error .expiredSignature => .error expiredError
  | .error .invalidToken => .error malformedError
  | .ok payload =>
      match payload.sub with
      | none => .error noUsernameError
      | some username =>
          match findUser db username with
          | none => .error userNotFoundError
          | some user => .ok user

/-- `login_for_access_token` (afastapi.py lines 142-164): look the username
up; 401 "Incorrect username or password" if absent or the stored password
differs (plain string comparison); otherwise issue a token for
`{"sub": user.username}`.  Pure read of the store, no mutation. -/
def login_for_access_token (db : DB) (username password : String) (now : Nat) :
    Except HTTPError TokenResponse :=
  match findUser db username with
  | none => .error badCredentialsError
  | some user =>
      if user.password = password then
        .ok { access_token := generate_jwt_token (some user.username) now
              token_type := "bearer" }
      else
        .error badCredentialsError

/-- `get_teas` (afastapi.py lines 181-185): unauthenticated read of the
whole tea table. -/
def get_teas (db : DB) : List Tea :=
  db.teas

/-- `create_tea` (afastapi.py lines 192-199): authenticate, insert a tea
built from the request body, let the store assign its id, return the stored
record.  Returns the endpoint's result together with the store state after
the call. -/
def create_tea (db : DB) (tea : TeaCreate) (credentials : Token) (now : Nat) :
    Except HTTPError Tea × DB :=
  match get_current_user db credentials now with
  | .error e => (.error e, db)
  | .ok _ =>
      let db_tea : Tea := { id := db.nextTeaId, name := tea.name, origin := tea.origin }
      (.ok db_tea,
       { db with teas := db.teas ++ [db_tea], nextTeaId := db.nextTeaId + 1 })

/-- `update_tea` (afastapi.py lines 206-217): authenticate, fetch the tea by
primary key, 404 "Tea not found" if absent, otherwise overwrite name and
origin in place and return the updated record. -/
def update_tea (db : DB) (teaId : Nat) (tea_update : TeaCreate)
    (credentials : Token) (now : Nat) : Except HTTPError Tea × DB :=
  match get_current_user db credentials now with
  | .error e => (.error e, db)
  | .ok _ =>
      match findTea db teaId with
      | none => (.error notFoundError, db)
      | some tea =>
          let tea₂ : Tea := { tea with name := tea_update.name, origin := tea_update.origin }
          (.ok tea₂,
           { db with teas := db.teas.map (fun t => if t.id == teaId then tea₂ else t) })

/-- `delete_tea` (afastapi.py lines 224-232): authenticate, fetch the tea by
primary key, 404 "Tea not found" if absent, otherwise delete the row and
return `{"message": "Tea with id <id> deleted"}`. -/
def delete_tea (db : DB) (teaId : Nat) (credentials : Token) (now : Nat) :
    Except HTTPError String × DB :=
  match get_current_user db credentials now with
  | .error e => (.error e, db)
  | .ok _ =>
      match findTea db teaId with
      | none => (.error notFoundError, db)
      | some _ =>
          (.ok ("Tea with id " ++ toString teaId ++ " deleted"),
           { db with teas := db.teas.filter (fun t => t.id != teaId) })

/-! ### Failure model: store unavailability and signing failure

`get_current_user` and `login_for_access_token` each wrap their body in
`try/except`.  To reason about a store or signing failure, the two
endpoints are re-embedded with an explicit fault input: `storeFault = some
msg` means the store session raises an exception whose text is `msg`
(instead of answering), and `signFault = some msg` means `jwt.encode`
raises inside `generate_jwt_token`.  `none` means the step succeeds, and
the fault-free instances coincide with the pure embeddings above. -/

/-- The outcome of one request as the transport sees it: a normal return, a
raised `HTTPException`, or some other exception escaping the endpoint
uncaught. -/
inductive ReqResult (α : Type) where
  | ok (a : α)
  | httpError (e : HTTPError)
  | unhandled (msg : String)
deriving Repr, DecidableEq

/-- How the transport renders an endpoint outcome to the caller.

Modelled from the spec: the HTTP framework is an excluded collaborator
("treated as a request/response dispatcher"); per the spec's error design,
an exception escaping the endpoint is rendered as a 500 whose body is the
fixed generic "Internal Server Error" — the exception text is logged, never
sent — while a raised `HTTPException` is rendered with its own status and
detail. -/
def surface {α : Type} : ReqResult α → Except HTTPError α
  | .ok a => .ok a
  | .httpError e => .error e
  | .unhandled _ => .error { status_code := 500, detail := "Internal Server Error" }

/-- `get_current_user` (afastapi.py lines 87-134) with a possibly failing
store.  A store exception raised by `session.exec` inside the `try` block
is caught by the generic `except Exception as e` clause (line 127), which
raises `HTTPException(401, f"Authentication error: {str(e)}")` — so a store
failure here surfaces as a 401 carrying the exception text, not as a 500. -/
def get_current_user_fallible (db : DB) (storeFault : Option String)
    (credentials : Token) (now : Nat) : ReqResult User :=
  match jwtDecode credentials JWT_SECRET_KEY now with
  | .error .expiredSignature => .httpError expiredError
  | .error .invalidToken => .httpError malformedError
  | .ok payload =>
      match payload.sub with
      | none => .httpError noUsernameError
      | some username =>
          match storeFault with
          | some msg =>
              .httpError { status_code := 401, detail := "Authentication error: " ++ msg }
          | none =>
              match findUser db username with
              | none => .httpError userNotFoundError
              | some user => .ok user

/-- `login_for_access_token` (afastapi.py lines 142-164) with a possibly
failing store and possibly failing signing.  Its `except Exception` clause
only prints and re-raises, so: a store exception escapes the endpoint; a
signing exception (re-raised by `generate_jwt_token`, line 40) escapes the
endpoint; and the 401 `HTTPException` for bad credentials is re-raised
unchanged. -/
def login_for_access_token_fallible (db : DB) (storeFault signFault : Option String)
    (username password : String) (now : Nat) : ReqResult TokenResponse :=
  match storeFault with
  | some msg => .unhandled msg
  | none =>
      match findUser db username with
      | none => .httpError badCredentialsError
      | some user =>
          if user.password = password then
            match signFault with
            | some msg => .unhandled msg
            | none =>
                .ok { access_token := generate_jwt_token (some user.username) now
                      token_type := "bearer" }
          else .httpError badCredentialsError

/-! ### Request sequences over the store -/

/-- One mutating request against the Resource API: the operation, the
bearer token it carries, and the time at which it is served. -/
inductive Op where
  | create (tea : TeaCreate) (credentials : Token) (now : Nat)
  | update (teaId : Nat) (tea : TeaCreate) (credentials : Token) (now : Nat)
  | delete (teaId : Nat) (credentials : Token) (now : Nat)
deriving Repr

/-- The store state after serving one request (the response is dropped;
a request that fails authentication or hits a missing id leaves the store
as it was). -/
def applyOp (db : DB) : Op → DB
  | .create tea credentials now => (create_tea db tea credentials now).2
  | .update teaId tea credentials now => (update_tea db teaId tea credentials now).2
  | .delete teaId credentials now => (delete_tea db teaId credentials now).2

/-- The store state after serving a sequence of requests. -/
def applyOps (db : DB) (ops : List Op) : DB :=
  ops.foldl applyOp db

/-- Store invariant: every stored tea's id is strictly below the id the
store will assign next.  It holds for the store's initial state (no teas)
and is preserved by every request. -/
def TeaIdsBelow (db : DB) : Prop :=
  ∀ t ∈ db.teas, t.id < db.nextTeaId

/-- An id strictly below the store's next id that no stored tea bears:
such an id can never be assigned again. -/
def AbsentBelow (db : DB) (i : Nat) : Prop :=
  TeaIdsBelow db ∧ i < db.nextTeaId ∧ ∀ t ∈ db.teas, t.id ≠ i

/-! ### Concrete fixtures -/

/-- The seeded default account (afastapi.py lines 77-84). -/
def adminUser : User := { id := 1, username := "admin", password := "password" }

/-- A sample stored tea. -/
def demoTea : Tea := { id := 1, name := "Earl Grey", origin := "England" }

/-- A sample store: the seeded account and one tea. -/
def demoDB : DB := { users := [adminUser], teas := [demoTea], nextTeaId := 2 }

/-- The store right after startup seeding: the default account, no teas. -/
def freshDB : DB := { users := [adminUser], teas := [], nextTeaId := 1 }

/-- A token issued for the seeded account at time 0. -/
def demoToken : Token := generate_jwt_token (some "admin") 0

/-- Equality of `Except` results is decidable componentwise; used to
evaluate concrete runs of the endpoints inside `decide`. -/
def exceptDecEq {ε α : Type} [DecidableEq ε] [DecidableEq α] :
    DecidableEq (Except ε α) := fun a b =>
  match a, b with
  | .ok x, .ok y =>
      if h : x = y then .isTrue (by rw [h])
      else .isFalse (by intro hc; cases hc; exact h rfl)
  | .error x, .error y =>
      if h : x = y then .isTrue (by rw [h])
      else .isFalse (by intro hc; cases hc; exact h rfl)
  | .ok _, .error _ => .isFalse (by intro hc; cases hc)
  | .error _, .ok _ => .isFalse (by intro hc; cases hc)

instance {ε α : Type} [DecidableEq ε] [DecidableEq α] : DecidableEq (Except ε α) :=
  exceptDecEq

/-! ### Lookup lemmas -/

/-- Among users with pairwise-distinct usernames (the `username` column
carries a UNIQUE constraint), membership determines the lookup result. -/
theorem find_user_of_mem (l : List User) (u : User) (hu : u ∈ l)
    (huniq : l.Pairwise fun a b => a.username ≠ b.username) :
    l.find? (fun v => v.username == u.username) = some u := by
  induction l with
  | nil => cases hu
  | cons a l ih =>
      have hpw := List.pairwise_cons.mp huniq
      rcases List.mem_cons.mp hu with rfl | h
      · exact List.find?_cons_of_pos _ (by simp)
      · have hne : a.username ≠ u.username := hpw.1 u h
        rw [List.find?_cons_of_neg _ (by simpa using hne)]
        exact ih h hpw.2

/-- `findUser` version of `find_user_of_mem`. -/
theorem findUser_of_mem (db : DB) (u : User) (hu : u ∈ db.users)
    (huniq : db.users.Pairwise fun a b => a.username ≠ b.username) :
    findUser db u.username = some u :=
  find_user_of_mem db.users u hu huniq

/-- A found user bears the queried username. -/
theorem findUser_username (db : DB) (username : String) (u : User)
    (h : findUser db username = some u) : u.username = username := by
  have := List.find?_some h
  simpa using this

/-- A found user is a stored user. -/
theorem findUser_mem (db : DB) (username : String) (u : User)
    (h : findUser db username = some u) : u ∈ db.users :=
  List.mem_of_find?_eq_some h

/-- A found tea bears the queried id. -/
theorem findTea_id (db : DB) (teaId : Nat) (t : Tea)
    (h : findTea db teaId = some t) : t.id = teaId := by
  have := List.find?_some h
  simpa using this

/-- A found tea is a stored tea. -/
theorem findTea_mem (db : DB) (teaId : Nat) (t : Tea)
    (h : findTea db teaId = some t) : t ∈ db.teas :=
  List.mem_of_find?_eq_some h

/-- An id no stored tea bears is not found. -/
theorem findTea_eq_none (db : DB) (teaId : Nat)
    (habs : ∀ t ∈ db.teas, t.id ≠ teaId) : findTea db teaId = none :=
  List.find?_eq_none.mpr fun t ht => by simpa using habs t ht

/-- An id some stored tea bears is found. -/
theorem findTea_of_present (db : DB) (teaId : Nat)
    (hpres : ∃ t ∈ db.teas, t.id = teaId) : ∃ t₀, findTea db teaId = some t₀ := by
  have : (db.teas.find? (fun t => t.id == teaId)).isSome :=
    List.find?_isSome.mpr (by simpa using hpres)
  exact Option.isSome_iff_exists.mp this

/-- A token freshly issued for a stored username authenticates as long as
its validity window has not elapsed. -/
theorem get_current_user_of_issued (db : DB) (username : String) (u : User)
    (iss now : Nat) (hfind : findUser db username = some u)
    (hnow : now < iss + JWT_EXPIRATION_MINUTES * 60) :
    get_current_user db (generate_jwt_token (some username) iss) now = .ok u := by
  unfold get_current_user jwtDecode generate_jwt_token
  simp [Nat.not_le.mpr hnow, hfind]

/-! ### Invariant lemmas for request sequences -/

/-- The store-assigned next id never decreases across a request. -/
theorem nextTeaId_le_applyOp (db : DB) (op : Op) :
    db.nextTeaId ≤ (applyOp db op).nextTeaId := by
  cases op <;> simp only [applyOp, create_tea, update_tea, delete_tea] <;>
    (repeat' split) <;> simp

/-- The store-assigned next id never decreases across a request sequence. -/
theorem nextTeaId_le_applyOps (db : DB) (ops : List Op) :
    db.nextTeaId ≤ (applyOps db ops).nextTeaId := by
  induction ops generalizing db with
  | nil => exact Nat.le_refl _
  | cons op ops ih =>
      exact Nat.le_trans (nextTeaId_le_applyOp db op) (ih (applyOp db op))

/-- `TeaIdsBelow` is preserved by every request. -/
theorem teaIdsBelow_applyOp (db : DB) (op : Op) (h : TeaIdsBelow db) :
    TeaIdsBelow (applyOp db op) := by
  cases op with
  | create tea credentials now =>
      simp only [applyOp, create_tea]
      split
      · exact h
      · intro t ht
        simp only [List.mem_append, List.mem_singleton] at ht
        rcases ht with ht | rfl
        · exact Nat.lt_succ_of_lt (h t ht)
        · exact Nat.lt_succ_self _
  | update teaId tea credentials now =>
      simp only [applyOp, update_tea]
      split
      · exact h
      · split
        · exact h
        · next tea₀ hfind =>
            intro t ht
            simp only [List.mem_map] at ht
            obtain ⟨a, ha, hmap⟩ := ht
            by_cases hid : a.id = teaId
            · have : t.id = tea₀.id := by
                rw [← hmap]
                simp [hid]
              rw [this]
              exact h tea₀ (findTea_mem db teaId tea₀ hfind)
            · have : t = a := by
                rw [← hmap]
                simp [hid]
              rw [this]
              exact h a ha
  | delete teaId credentials now =>
      simp only [applyOp, delete_tea]
      split
      · exact h
      · split
        · exact h
        · intro t ht
          exact h t (List.mem_of_mem_filter ht)

/-- `TeaIdsBelow` is preserved by every request sequence. -/
theorem teaIdsBelow_applyOps (db : DB) (ops : List Op) (h : TeaIdsBelow db) :
    TeaIdsBelow (applyOps db ops) := by
  induction ops generalizing db with
  | nil => exact h
  | cons op ops ih => exact ih (applyOp db op) (teaIdsBelow_applyOp db op h)

/-- Serving a concatenation of request sequences is serving them in turn. -/
theorem applyOps_append (db : DB) (pre suf : List Op) :
    applyOps db (pre ++ suf) = applyOps (applyOps db pre) suf :=
  List.foldl_append ..

/-- `AbsentBelow` is preserved by every request: the store only ever
assigns its current next id, which lies above `i`. -/
theorem absentBelow_applyOp (db : DB) (op : Op) (i : Nat) (h : AbsentBelow db i) :
    AbsentBelow (applyOp db op) i := by
  obtain ⟨hinv, hlt, habs⟩ := h
  refine ⟨teaIdsBelow_applyOp db op hinv,
    Nat.lt_of_lt_of_le hlt (nextTeaId_le_applyOp db op), ?_⟩
  cases op with
  | create tea credentials now =>
      simp only [applyOp, create_tea]
      split
      · exact habs
      · intro t ht
        simp only [List.mem_append, List.mem_singleton] at ht
        rcases ht with ht | rfl
        · exact habs t ht
        · exact Nat.ne_of_gt hlt
  | update teaId tea credentials now =>
      simp only [applyOp, update_tea]
      split
      · exact habs
      · split
        · exact habs
        · next tea₀ hfind =>
            intro t ht
            simp only [List.mem_map] at ht
            obtain ⟨a, ha, hmap⟩ := ht
            by_cases hid : a.id = teaId
            · have : t.id = tea₀.id := by
                rw [← hmap]
                simp [hid]
              rw [this]
              exact habs tea₀ (findTea_mem db teaId tea₀ hfind)
            · have : t = a := by
                rw [← hmap]
                simp [hid]
              rw [this]
              exact habs a ha
  | delete teaId credentials now =>
      simp only [applyOp, delete_tea]
      split
      · exact habs
      · split
        · exact habs
        · intro t ht
          exact habs t (List.mem_of_mem_filter ht)

/-- `AbsentBelow` is preserved by every request sequence. -/
theorem absentBelow_applyOps (db : DB) (ops : List Op) (i : Nat)
    (h : AbsentBelow db i) : AbsentBelow (applyOps db ops) i := by
  induction ops generalizing db with
  | nil => exact h
  | cons op ops ih => exact ih (applyOp db op) (absentBelow_applyOp db op i h)

/-- An authenticated update of an absent id fails with 404 and returns the
store it was given. -/
theorem update_tea_absent (db : DB) (teaId : Nat) (tea_update : TeaCreate)
    (credentials : Token) (now : Nat) (u : User)
    (hauth : get_current_user db credentials now = .ok u)
    (habs : ∀ t ∈ db.teas, t.id ≠ teaId) :
    update_tea db teaId tea_update credentials now = (.error notFoundError, db) := by
  unfold update_tea
  rw [hauth, findTea_eq_none db teaId habs]

/-- An authenticated delete of an absent id fails with 404 and returns the
store it was given. -/
theorem delete_tea_absent (db : DB) (teaId : Nat) (credentials : Token)
    (now : Nat) (u : User)
    (hauth : get_current_user db credentials now = .ok u)
    (habs : ∀ t ∈ db.teas, t.id ≠ teaId) :
    delete_tea db teaId credentials now = (.error notFoundError, db) := by
  unfold delete_tea
  rw [hauth, findTea_eq_none db teaId habs]

/-! ### The claims -/

/-- C1: for every (username, password) pair present in the Credential
Store, `login(username, password)` followed immediately by an Auth Gate
`authenticate` on the returned bearer token succeeds and resolves to the
User whose username is that username. -/
theorem login_then_authenticate_resolves (db : DB) (username password : String)
    (now : Nat) (u : User) (hu : u ∈ db.users) (hname : u.username = username)
    (hpwd : u.password = password)
    (huniq : db.users.Pairwise fun a b => a.username ≠ b.username) :
    ∃ resp : TokenResponse,
      login_for_access_token db username password now = .ok resp ∧
      resp.token_type = "bearer" ∧
      get_current_user db resp.access_token now = .ok u := by
  have hfind : findUser db username = some u := by
    rw [← hname]
    exact findUser_of_mem db u hu huniq
  refine ⟨{ access_token := generate_jwt_token (some u.username) now
            token_type := "bearer" }, ?_, rfl, ?_⟩
  · unfold login_for_access_token
    rw [hfind]
    simp [hpwd]
  · rw [hname]
    exact get_current_user_of_issued db username u now now hfind
      (by simp [JWT_EXPIRATION_MINUTES])

/-- Witness for C1: the seeded account logs in and authenticates. -/
theorem login_then_authenticate_resolves_witness :
    ∃ resp : TokenResponse,
      login_for_access_token demoDB "admin" "password" 0 = .ok resp ∧
      resp.token_type = "bearer" ∧
      get_current_user demoDB resp.access_token 0 = .ok adminUser :=
  login_then_authenticate_resolves demoDB "admin" "password" 0 adminUser
    (by simp [demoDB]) rfl rfl (by simp [demoDB])

/-- C3 counterexample: this token's embedded expiry (0) is before the
current time (5), yet — because PyJWT verifies the signature before
validating the `exp` claim — its wrong signature makes verification fail
with the Malformed error, not with Expired. -/
theorem expired_with_bad_signature_is_malformed :
    get_current_user demoDB
        { claims := { sub := some "admin", exp := 0 }, signedWith := "other-secret" } 5
      = .error malformedError ∧
    malformedError ≠ expiredError :=
  ⟨rfl, by decide⟩

/-- C3 (amended): a token signed with the service's secret whose embedded
expiry is at or before the current time fails verification with Expired;
when the signature is invalid the signature check comes first and the
failure is Malformed instead. -/
theorem expired_with_valid_signature_fails_expired (db : DB) (claims : Claims)
    (now : Nat) (hexp : claims.exp ≤ now) :
    get_current_user db { claims := claims, signedWith := JWT_SECRET_KEY } now
      = .error expiredError := by
  unfold get_current_user jwtDecode
  simp [hexp]

/-- Witness for C3 (amended): a correctly signed token that expired at time
0, verified at time 5. -/
theorem expired_with_valid_signature_fails_expired_witness :
    (({ sub := some "admin", exp := 0 } : Claims).exp ≤ 5) ∧
    get_current_user demoDB
        { claims := { sub := some "admin", exp := 0 }, signedWith := JWT_SECRET_KEY } 5
      = .error expiredError :=
  ⟨by decide,
   expired_with_valid_signature_fails_expired demoDB { sub := some "admin", exp := 0 } 5
     (by decide)⟩

/-- C5: an authenticated update of an id absent from the Resource Store
fails with 404 "Tea not found" and leaves the store exactly as it was. -/
theorem update_absent_not_found_store_unchanged (db : DB) (teaId : Nat)
    (tea_update : TeaCreate) (credentials : Token) (now : Nat) (u : User)
    (hauth : get_current_user db credentials now = .ok u)
    (habs : ∀ t ∈ db.teas, t.id ≠ teaId) :
    update_tea db teaId tea_update credentials now = (.error notFoundError, db) :=
  update_tea_absent db teaId tea_update credentials now u hauth habs

/-- Witness for C5: updating the missing id 99 in the sample store. -/
theorem update_absent_not_found_store_unchanged_witness :
    get_current_user demoDB demoToken 0 = .ok adminUser ∧
    (∀ t ∈ demoDB.teas, t.id ≠ 99) ∧
    update_tea demoDB 99 { name := "X", origin := "Y" } demoToken 0
      = (.error notFoundError, demoDB) :=
  ⟨rfl, by decide,
   update_absent_not_found_store_unchanged demoDB 99 { name := "X", origin := "Y" }
     demoToken 0 adminUser rfl (by decide)⟩

/-- C7: a login whose username is unknown or whose password differs from
the stored secret (plain string equality) fails with 401 "Incorrect
username or password"; the result carries no token response, so no token
is issued. -/
theorem login_bad_credentials_unauthorized (db : DB) (username password : String)
    (now : Nat)
    (hbad : ∀ u ∈ db.users, u.username = username → u.password ≠ password) :
    login_for_access_token db username password now = .error badCredentialsError := by
  unfold login_for_access_token
  cases hfind : findUser db username with
  | none => rfl
  | some u =>
      have huser : u.username = username := findUser_username db username u hfind
      have hne : u.password ≠ password :=
        hbad u (findUser_mem db username u hfind) huser
      simp [hne]

/-- Witness for C7: the seeded account with a wrong password. -/
theorem login_bad_credentials_unauthorized_witness :
    (∀ u ∈ demoDB.users, u.username = "admin" → u.password ≠ "wrong") ∧
    login_for_access_token demoDB "admin" "wrong" 0 = .error badCredentialsError :=
  ⟨by decide,
   login_bad_credentials_unauthorized demoDB "admin" "wrong" 0 (by decide)⟩

/-- C9: issuing a token for a subject embeds that subject and an expiry
equal to the issuance time plus exactly 30 minutes (1800 seconds,
`JWT_EXPIRATION_MINUTES = 30`). -/
theorem issue_embeds_subject_and_expiry (subject : String) (now : Nat) :
    (generate_jwt_token (some subject) now).claims.sub = some subject ∧
    (generate_jwt_token (some subject) now).claims.exp = now + 30 * 60 ∧
    JWT_EXPIRATION_MINUTES = 30 :=
  ⟨rfl, rfl, rfl⟩

/-- C4 counterexample: a token with a valid signature but no `sub` claim —
a required claim absent — whose expiry has passed fails with Expired, not
Malformed: PyJWT validates `exp` during decode, before the endpoint ever
looks for `sub`. -/
theorem missing_sub_expired_fails_expired_not_malformed :
    get_current_user demoDB
        { claims := { sub := none, exp := 0 }, signedWith := JWT_SECRET_KEY } 5
      = .error expiredError ∧
    expiredError ≠ malformedError ∧
    expiredError ≠ noUsernameError :=
  ⟨rfl, by decide, by decide⟩

/-- C4 (amended): verification fails with Malformed whenever the signature
does not verify against the service's secret (in particular for any token
signed with a different secret), regardless of the other claims; when the
signature verifies and the token is unexpired, a missing `sub` claim fails
with the 401 missing-username error, and a present `sub` makes verification
succeed with the embedded subject, which the gate then resolves against the
Credential Store. -/
theorem verify_malformed_or_embedded_subject (db : DB) (t : Token) (now : Nat)
    (s : String) :
    (t.signedWith ≠ JWT_SECRET_KEY →
        get_current_user db t now = .error malformedError) ∧
    (t.signedWith = JWT_SECRET_KEY → now < t.claims.exp → t.claims.sub = none →
        get_current_user db t now = .error noUsernameError) ∧
    (t.signedWith = JWT_SECRET_KEY → now < t.claims.exp → t.claims.sub = some s →
        get_current_user db t now =
          match findUser db s with
          | none => .error userNotFoundError
          | some user => .ok user) := by
  refine ⟨fun hsig => ?_, fun hsig hexp hsub => ?_, fun hsig hexp hsub => ?_⟩
  · unfold get_current_user jwtDecode
    simp [hsig]
  · unfold get_current_user jwtDecode
    simp [hsig, Nat.not_le.mpr hexp, hsub]
  · unfold get_current_user jwtDecode
    cases hf : findUser db s <;> simp [hsig, Nat.not_le.mpr hexp, hsub, hf]

/-- Witness for C4 (amended): its three cases at concrete tokens — a wrong
secret, a missing subject, and the seeded subject. -/
theorem verify_malformed_or_embedded_subject_witness :
    get_current_user demoDB
        { claims := { sub := some "admin", exp := 1800 }, signedWith := "other-secret" } 5
      = .error malformedError ∧
    get_current_user demoDB
        { claims := { sub := none, exp := 1800 }, signedWith := JWT_SECRET_KEY } 5
      = .error noUsernameError ∧
    get_current_user demoDB
        { claims := { sub := some "admin", exp := 1800 }, signedWith := JWT_SECRET_KEY } 5
      = .ok adminUser := by
  refine ⟨(verify_malformed_or_embedded_subject demoDB _ 5 "admin").1 (by decide),
    (verify_malformed_or_embedded_subject demoDB _ 5 "admin").2.1 rfl (by decide) rfl, ?_⟩
  have h := (verify_malformed_or_embedded_subject demoDB
    { claims := { sub := some "admin", exp := 1800 }, signedWith := JWT_SECRET_KEY }
    5 "admin").2.2 rfl (by decide) rfl
  rw [h]
  rfl

/-- C2: over any request sequence from a store satisfying the id invariant,
the id that `create` will assign differs from the id of every record in the
current store and of every record that existed at any earlier point of the
sequence; a create with a successful gate check returns exactly the
submitted name and origin under that fresh id and appends it to the list,
which thus grows by exactly one record. -/
theorem create_fresh_id_and_list_grows (db₀ : DB) (h₀ : TeaIdsBelow db₀)
    (pre suf : List Op) (tea : TeaCreate) (credentials : Token) (now : Nat)
    (u : User)
    (hauth : get_current_user (applyOps db₀ (pre ++ suf)) credentials now = .ok u) :
    (∀ t ∈ (applyOps db₀ pre).teas, t.id ≠ (applyOps db₀ (pre ++ suf)).nextTeaId) ∧
    (∀ t ∈ (applyOps db₀ (pre ++ suf)).teas,
        t.id ≠ (applyOps db₀ (pre ++ suf)).nextTeaId) ∧
    (create_tea (applyOps db₀ (pre ++ suf)) tea credentials now).1 =
      .ok { id := (applyOps db₀ (pre ++ suf)).nextTeaId
            name := tea.name, origin := tea.origin } ∧
    get_teas (create_tea (applyOps db₀ (pre ++ suf)) tea credentials now).2 =
      get_teas (applyOps db₀ (pre ++ suf)) ++
        [{ id := (applyOps db₀ (pre ++ suf)).nextTeaId
           name := tea.name, origin := tea.origin }] ∧
    (get_teas (create_tea (applyOps db₀ (pre ++ suf)) tea credentials now).2).length =
      (get_teas (applyOps db₀ (pre ++ suf))).length + 1 := by
  have hpre : TeaIdsBelow (applyOps db₀ pre) := teaIdsBelow_applyOps db₀ pre h₀
  have hcur : TeaIdsBelow (applyOps db₀ (pre ++ suf)) :=
    teaIdsBelow_applyOps db₀ (pre ++ suf) h₀
  have hmono : (applyOps db₀ pre).nextTeaId ≤ (applyOps db₀ (pre ++ suf)).nextTeaId := by
    rw [applyOps_append]
    exact nextTeaId_le_applyOps (applyOps db₀ pre) suf
  refine ⟨?_, ?_, ?_, ?_, ?_⟩
  · intro t ht
    exact Nat.ne_of_lt (Nat.lt_of_lt_of_le (hpre t ht) hmono)
  · intro t ht
    exact Nat.ne_of_lt (hcur t ht)
  · unfold create_tea
    rw [hauth]
  · unfold create_tea get_teas
    rw [hauth]
  · unfold create_tea get_teas
    rw [hauth]
    simp

/-- Witness for C2: the first create against the freshly seeded store. -/
theorem create_fresh_id_and_list_grows_witness :
    (∀ t ∈ (applyOps freshDB []).teas, t.id ≠ (applyOps freshDB ([] ++ [])).nextTeaId) ∧
    (create_tea (applyOps freshDB ([] ++ []))
        { name := "Earl Grey", origin := "England" } demoToken 0).1 =
      .ok { id := (applyOps freshDB ([] ++ [])).nextTeaId
            name := "Earl Grey", origin := "England" } ∧
    (get_teas (create_tea (applyOps freshDB ([] ++ []))
        { name := "Earl Grey", origin := "England" } demoToken 0).2).length =
      (get_teas (applyOps freshDB ([] ++ []))).length + 1 := by
  have h := create_fresh_id_and_list_grows freshDB
    (by intro t ht; simp [freshDB] at ht) [] []
    { name := "Earl Grey", origin := "England" } demoToken 0 adminUser rfl
  exact ⟨h.1, h.2.2.1, h.2.2.2.2⟩

/-- C6: deleting a present id under a successful gate check returns the
confirmation naming that id and makes the id absent; the id stays absent
under every further request sequence, and any later authenticated update or
delete of it fails with 404, leaving the store unchanged — no
resurrection. -/
theorem delete_present_absent_no_resurrection (db : DB) (teaId : Nat)
    (credentials : Token) (now : Nat) (u : User) (hinv : TeaIdsBelow db)
    (hauth : get_current_user db credentials now = .ok u)
    (hpres : ∃ t ∈ db.teas, t.id = teaId) :
    (delete_tea db teaId credentials now).1 =
      .ok ("Tea with id " ++ toString teaId ++ " deleted") ∧
    (∀ ops : List Op,
        ∀ t ∈ (applyOps (delete_tea db teaId credentials now).2 ops).teas,
          t.id ≠ teaId) ∧
    (∀ (ops : List Op) (tea₂ : TeaCreate) (credentials₂ : Token) (now₂ : Nat)
        (u₂ : User),
        get_current_user (applyOps (delete_tea db teaId credentials now).2 ops)
            credentials₂ now₂ = .ok u₂ →
        update_tea (applyOps (delete_tea db teaId credentials now).2 ops) teaId tea₂
            credentials₂ now₂ =
          (.error notFoundError,
           applyOps (delete_tea db teaId credentials now).2 ops)) ∧
    (∀ (ops : List Op) (credentials₂ : Token) (now₂ : Nat) (u₂ : User),
        get_current_user (applyOps (delete_tea db teaId credentials now).2 ops)
            credentials₂ now₂ = .ok u₂ →
        delete_tea (applyOps (delete_tea db teaId credentials now).2 ops) teaId
            credentials₂ now₂ =
          (.error notFoundError,
           applyOps (delete_tea db teaId credentials now).2 ops)) := by
  obtain ⟨t₀, hmem, hid⟩ := hpres
  obtain ⟨t₁, hfind⟩ := findTea_of_present db teaId ⟨t₀, hmem, hid⟩
  have hdel : delete_tea db teaId credentials now =
      (.ok ("Tea with id " ++ toString teaId ++ " deleted"),
       { db with teas := db.teas.filter (fun t => t.id != teaId) }) := by
    unfold delete_tea
    rw [hauth, hfind]
  have habs : AbsentBelow (delete_tea db teaId credentials now).2 teaId := by
    rw [hdel]
    refine ⟨fun t ht => hinv t (List.mem_of_mem_filter ht), ?_, fun t ht => ?_⟩
    · exact hid ▸ hinv t₀ hmem
    · have := (List.mem_filter.mp ht).2
      simpa using this
  have hstays : ∀ ops : List Op,
      ∀ t ∈ (applyOps (delete_tea db teaId credentials now).2 ops).teas,
        t.id ≠ teaId :=
    fun ops =>
      (absentBelow_applyOps (delete_tea db teaId credentials now).2 ops teaId habs).2.2
  refine ⟨by rw [hdel], hstays, ?_, ?_⟩
  · intro ops tea₂ credentials₂ now₂ u₂ hauth₂
    exact update_tea_absent _ teaId tea₂ credentials₂ now₂ u₂ hauth₂ (hstays ops)
  · intro ops credentials₂ now₂ u₂ hauth₂
    exact delete_tea_absent _ teaId credentials₂ now₂ u₂ hauth₂ (hstays ops)

/-- Witness for C6: deleting tea 1 from the sample store, then updating and
deleting it again. -/
theorem delete_present_absent_no_resurrection_witness :
    (delete_tea demoDB 1 demoToken 0).1 =
      .ok ("Tea with id " ++ toString 1 ++ " deleted") ∧
    update_tea (applyOps (delete_tea demoDB 1 demoToken 0).2 []) 1
        { name := "X", origin := "Y" } demoToken 0 =
      (.error notFoundError, applyOps (delete_tea demoDB 1 demoToken 0).2 []) ∧
    delete_tea (applyOps (delete_tea demoDB 1 demoToken 0).2 []) 1 demoToken 0 =
      (.error notFoundError, applyOps (delete_tea demoDB 1 demoToken 0).2 []) := by
  have h := delete_present_absent_no_resurrection demoDB 1 demoToken 0 adminUser
    (by intro t ht; simp [demoDB] at ht; subst ht; decide) rfl
    ⟨demoTea, by simp [demoDB], rfl⟩
  exact ⟨h.1, h.2.2.1 [] { name := "X", origin := "Y" } demoToken 0 adminUser rfl,
    h.2.2.2 [] demoToken 0 adminUser rfl⟩

/-- C10: a successful update changes only the name and origin of the record
bearing the given id: the returned record keeps that id, the user table,
the next assigned id and the record count are unchanged, and positionally
every record bearing a different id is untouched while positions bearing
the id hold exactly the renamed record. -/
theorem update_changes_only_named_fields (db : DB) (teaId : Nat)
    (tea_update : TeaCreate) (credentials : Token) (now : Nat) (u : User)
    (hauth : get_current_user db credentials now = .ok u)
    (hpres : ∃ t ∈ db.teas, t.id = teaId) :
    (update_tea db teaId tea_update credentials now).1 =
      .ok { id := teaId, name := tea_update.name, origin := tea_update.origin } ∧
    (update_tea db teaId tea_update credentials now).2.users = db.users ∧
    (update_tea db teaId tea_update credentials now).2.nextTeaId = db.nextTeaId ∧
    (update_tea db teaId tea_update credentials now).2.teas.length =
      db.teas.length ∧
    (∀ i : Nat,
        (update_tea db teaId tea_update credentials now).2.teas.get? i =
          (db.teas.get? i).map fun t =>
            if t.id = teaId
            then { id := teaId, name := tea_update.name, origin := tea_update.origin }
            else t) := by
  obtain ⟨t₁, hfind⟩ := findTea_of_present db teaId hpres
  have hid : t₁.id = teaId := findTea_id db teaId t₁ hfind
  subst hid
  have hupd : update_tea db t₁.id tea_update credentials now =
      (.ok { id := t₁.id, name := tea_update.name, origin := tea_update.origin },
       { db with teas := db.teas.map fun t =>
           if t.id == t₁.id
           then { id := t₁.id, name := tea_update.name, origin := tea_update.origin }
           else t }) := by
    unfold update_tea
    rw [hauth, hfind]
  rw [hupd]
  refine ⟨rfl, rfl, rfl, by simp, fun i => ?_⟩
  simp only [List.get?_map]
  cases db.teas.get? i with
  | none => rfl
  | some t => by_cases ht : t.id = t₁.id <;> simp [ht]

/-- Witness for C10: renaming tea 1 in the sample store. -/
theorem update_changes_only_named_fields_witness :
    (update_tea demoDB 1 { name := "Earl Grey Supreme", origin := "England" }
        demoToken 0).1 =
      .ok { id := 1, name := "Earl Grey Supreme", origin := "England" } ∧
    (update_tea demoDB 1 { name := "Earl Grey Supreme", origin := "England" }
        demoToken 0).2.users = demoDB.users :=
  have h := update_changes_only_named_fields demoDB 1
    { name := "Earl Grey Supreme", origin := "England" } demoToken 0 adminUser rfl
    ⟨demoTea, by simp [demoDB], rfl⟩
  ⟨h.1, h.2.1⟩

/-- C8 counterexample: a store failure while authenticating a valid bearer
token is caught by `get_current_user`'s generic `except Exception` clause
and surfaced as 401 Unauthorized with the exception text in the detail —
not as a 500 with the generic message. -/
theorem store_failure_during_auth_counterexample :
    surface (get_current_user_fallible demoDB (some "database is locked") demoToken 5)
      = .error { status_code := 401
                 detail := "Authentication error: database is locked" } ∧
    surface (get_current_user_fallible demoDB (some "database is locked") demoToken 5)
      ≠ .error { status_code := 500, detail := "Internal Server Error" } :=
  ⟨rfl, by decide⟩

/-- C8 (amended): a store or signing failure during login escapes the
endpoint uncaught and is surfaced as 500 with only the generic
"Internal Server Error" body; but a store failure while authenticating a
valid bearer token is surfaced as 401 Unauthorized with the exception text
embedded in the response detail. -/
theorem internal_failures_surfaced (db : DB) (msg username password : String)
    (now : Nat) (u : User) (t : Token) (s : String)
    (hfind : findUser db username = some u) (hpwd : u.password = password)
    (hsig : t.signedWith = JWT_SECRET_KEY) (hexp : now < t.claims.exp)
    (hsub : t.claims.sub = some s) :
    surface (login_for_access_token_fallible db (some msg) none username password now)
      = .error { status_code := 500, detail := "Internal Server Error" } ∧
    surface (login_for_access_token_fallible db none (some msg) username password now)
      = .error { status_code := 500, detail := "Internal Server Error" } ∧
    surface (get_current_user_fallible db (some msg) t now)
      = .error { status_code := 401, detail := "Authentication error: " ++ msg } := by
  refine ⟨rfl, ?_, ?_⟩
  · unfold login_for_access_token_fallible
    rw [hfind]
    simp [hpwd, surface]
  · unfold get_current_user_fallible jwtDecode
    simp [hsig, Nat.not_le.mpr hexp, hsub, surface]

/-- Witness for C8 (amended): a store failure at login, a signing failure
at login, and a store failure during authentication, all against the
sample store. -/
theorem internal_failures_surfaced_witness :
    surface (login_for_access_token_fallible demoDB (some "db down") none
        "admin" "password" 0)
      = .error { status_code := 500, detail := "Internal Server Error" } ∧
    surface (login_for_access_token_fallible demoDB none (some "db down")
        "admin" "password" 0)
      = .error { status_code := 500, detail := "Internal Server Error" } ∧
    surface (get_current_user_fallible demoDB (some "db down") demoToken 5)
      = .error { status_code := 401, detail := "Authentication error: db down" } :=
  internal_failures_surfaced demoDB "db down" "admin" "password" 0 adminUser
    demoToken "admin" rfl rfl rfl (by decide) rfl

end TeaShop
